import Mathlib

/-!
# Connect Lambda function association resource

Shallow embedding of `aws/resource_aws_connect_lambda_function_association.go`:
the three reconciler operations `resourceAwsConnectLambdaFunctionAssociationCreate`,
`...Read` and `...Delete`, written as state-passing functions over

* the tracked resource data `d` (`schema.ResourceData`), and
* a `World`: the state of the remote control plane together with the ordered
  record of the remote calls issued so far.

The source file imports three collaborators that it does not contain: the ID
codec (`tfconnect`), the Existence Finder (`finder`) and the SDK client
(`connect.Connect`).  The operations take them as parameters (`Tfconnect`,
`ConnectConn`), so every general theorem below holds for all their behaviours.
`log.Printf` calls are omitted: they touch neither `d` nor the remote.
-/

namespace Aws

/-! ## Go values used by the source -/

/-- Go `error` value (non-nil): `errorString` is what `fmt.Errorf` builds without a `%w`
verb, `wrapError` what it builds with one (the cause stays reachable through `Unwrap`).
A nil `error` is `none : Option GoError`. -/
inductive GoError where
  | errorString (msg : String)
  | wrapError (msg : String) (cause : GoError)
deriving DecidableEq, Repr

/-- The `Error()` method: the message text. -/
def GoError.Error : GoError → String
  | .errorString msg => msg
  | .wrapError msg _ => msg

/-- The `Unwrap()` method as used by `errors.Unwrap`. -/
def GoError.Unwrap : GoError → Option GoError
  | .errorString _ => none
  | .wrapError _ cause => some cause

/-- A `context.Context`, reduced to what a remote call can observe of it: its deadline
and whether it has been cancelled. -/
structure Context where
  deadline : Option Nat
  cancelled : Bool
deriving DecidableEq, Repr

/-- The `aws.BackgroundContext()` value: never cancelled, no deadline.  The SDK uses it
for every request sent through a method without the `WithContext` suffix. -/
def Context.background : Context :=
  { deadline := none, cancelled := false }

/-- Severity of a `diag.Diagnostic`. -/
inductive Severity where
  | Error
  | Warning
deriving DecidableEq, Repr

/-- A `diag.Diagnostic` (the fields `diag.FromErr` fills in). -/
structure Diagnostic where
  Severity : Severity
  Summary : String
deriving DecidableEq, Repr

/-- The type `diag.Diagnostics`; the nil slice (success) is the empty list. -/
abbrev Diagnostics := List Diagnostic

/-- The function `diag.FromErr`: nil for a nil error, otherwise one `Error` diagnostic
whose summary is `err.Error()`. -/
def FromErr : Option GoError → Diagnostics
  | none => []
  | some err => [{ Severity := Severity.Error, Summary := err.Error }]

/-! ## Tracked resource data -/

/-- The part of `schema.ResourceData` this resource uses: the id and the two schema
attributes.  `written` is a ghost record of the keys passed to `SetId` (as `"id"`) and
`Set`, in call order. -/
structure ResourceData where
  id : String
  instance_id : String
  function_arn : String
  written : List String
deriving DecidableEq, Repr

/-- The method `d.Id()`. -/
def ResourceData.Id (d : ResourceData) : String := d.id

/-- The method `d.SetId(v)`. -/
def ResourceData.SetId (d : ResourceData) (v : String) : ResourceData :=
  { d with id := v, written := d.written ++ ["id"] }

/-- The method `d.Get(key).(string)` for the keys of the schema. -/
def ResourceData.Get (d : ResourceData) (key : String) : String :=
  if key = "instance_id" then d.instance_id
  else if key = "function_arn" then d.function_arn
  else ""

/-- The method `d.Set(key, value)`; its error result (unknown key) is discarded by the
source, and nothing is written in that case. -/
def ResourceData.Set (d : ResourceData) (key value : String) : ResourceData :=
  if key = "instance_id" then
    { d with instance_id := value, written := d.written ++ [key] }
  else if key = "function_arn" then
    { d with function_arn := value, written := d.written ++ [key] }
  else d

/-! ## The remote side -/

/-- One remote call, with the context it was sent under and its two arguments.
`find` is the Existence Finder's listing of the instance's functions. -/
inductive RemoteCall where
  | associate (ctx : Context) (instanceId functionArn : String)
  | find (ctx : Context) (instanceId functionArn : String)
  | disassociate (ctx : Context) (instanceId functionArn : String)
deriving DecidableEq, Repr

/-- Remote state `remote` plus the record of calls issued so far. -/
structure World (σ : Type) where
  remote : σ
  calls : List RemoteCall
deriving DecidableEq, Repr

/-- Behaviour of the connection `meta.(*AWSClient).connectconn` and of the finder that
scans through it, over a remote state `σ`.  These live outside the source file and are
parameters.  The finder only lists, so it returns no new remote state. -/
structure ConnectConn (σ : Type) where
  associateLambdaFunction : Context → String → String → σ → Option GoError × σ
  disassociateLambdaFunction : Context → String → String → σ → Option GoError × σ
  lambdaFunctionAssociationByArn : Context → String → String → σ → String × Option GoError

/-- The package `tfconnect` as the source file uses it: `LambdaFunctionAssociationID`
is called in a single-value position (it returns one string and no error), and
`LambdaFunctionAssociationParseID` returns two strings and an error. -/
structure Tfconnect where
  LambdaFunctionAssociationID : String → String → String
  LambdaFunctionAssociationParseID : String → String × String × Option GoError

/-- The struct `connect.AssociateLambdaFunctionInput`. -/
structure AssociateLambdaFunctionInput where
  InstanceId : String
  FunctionArn : String
deriving DecidableEq, Repr

/-- The struct `connect.DisassociateLambdaFunctionInput`. -/
structure DisassociateLambdaFunctionInput where
  InstanceId : String
  FunctionArn : String
deriving DecidableEq, Repr

/-- The SDK method `conn.AssociateLambdaFunctionWithContext(ctx, input)`: the request is
sent under `ctx`. -/
def AssociateLambdaFunctionWithContext {σ : Type} (conn : ConnectConn σ) (ctx : Context)
    (input : AssociateLambdaFunctionInput) (w : World σ) : Option GoError × World σ :=
  let r := conn.associateLambdaFunction ctx input.InstanceId input.FunctionArn w.remote
  (r.1, { remote := r.2,
          calls := w.calls ++ [RemoteCall.associate ctx input.InstanceId input.FunctionArn] })

/-- The SDK method `conn.DisassociateLambdaFunctionWithContext(ctx, input)`. -/
def DisassociateLambdaFunctionWithContext {σ : Type} (conn : ConnectConn σ) (ctx : Context)
    (input : DisassociateLambdaFunctionInput) (w : World σ) : Option GoError × World σ :=
  let r := conn.disassociateLambdaFunction ctx input.InstanceId input.FunctionArn w.remote
  (r.1, { remote := r.2,
          calls := w.calls ++ [RemoteCall.disassociate ctx input.InstanceId input.FunctionArn] })

/-- The SDK method `conn.DisassociateLambdaFunction(input)`: no context argument, the
request is sent under the background context. -/
def DisassociateLambdaFunction {σ : Type} (conn : ConnectConn σ)
    (input : DisassociateLambdaFunctionInput) (w : World σ) : Option GoError × World σ :=
  DisassociateLambdaFunctionWithContext conn Context.background input w

/-- The call `finder.LambdaFunctionAssociationByArnWithContext(ctx, conn, instanceID,
functionArn)`: returns the associated ARN (empty when absent) and an error. -/
def LambdaFunctionAssociationByArnWithContext {σ : Type} (conn : ConnectConn σ)
    (ctx : Context) (instanceID functionArn : String) (w : World σ) :
    (String × Option GoError) × World σ :=
  (conn.lambdaFunctionAssociationByArn ctx instanceID functionArn w.remote,
   { w with calls := w.calls ++ [RemoteCall.find ctx instanceID functionArn] })

/-! ## The reconciler operations -/

/-- What an operation leaves behind: the returned diagnostics, the resource data and
the world. -/
structure Outcome (σ : Type) where
  diags : Diagnostics
  d : ResourceData
  world : World σ
deriving DecidableEq, Repr

/-- The function `resourceAwsConnectLambdaFunctionAssociationRead`.  The error returned
by `LambdaFunctionAssociationParseID` is bound to `err` and then overwritten by the
finder's result before anything reads it. -/
def resourceAwsConnectLambdaFunctionAssociationRead {σ : Type} (tf : Tfconnect)
    (conn : ConnectConn σ) (ctx : Context) (d : ResourceData) (w : World σ) : Outcome σ :=
  let parsed := tf.LambdaFunctionAssociationParseID d.Id
  let instanceID := parsed.1
  let functionArn := parsed.2.1
  let found := LambdaFunctionAssociationByArnWithContext conn ctx instanceID functionArn w
  let associatedFunctionArn := found.1.1
  match found.1.2 with
  | some err =>
    { diags := FromErr (some (GoError.wrapError
        ("error finding Lambda Association by Function ARN (" ++ functionArn ++ "): "
          ++ err.Error) err)),
      d := d, world := found.2 }
  | none =>
    if associatedFunctionArn = "" then
      { diags := FromErr (some (GoError.errorString
          ("error finding Lambda Association Function ARN (" ++ functionArn
            ++ "): not found"))),
        d := d, world := found.2 }
    else
      let d1 := d.Set "function_arn" functionArn
      let d2 := d1.Set "instance_id" instanceID
      { diags := [], d := d2, world := found.2 }

/-- The function `resourceAwsConnectLambdaFunctionAssociationCreate`. -/
def resourceAwsConnectLambdaFunctionAssociationCreate {σ : Type} (tf : Tfconnect)
    (conn : ConnectConn σ) (ctx : Context) (d : ResourceData) (w : World σ) : Outcome σ :=
  let input : AssociateLambdaFunctionInput :=
    { InstanceId := d.Get "instance_id", FunctionArn := d.Get "function_arn" }
  let lfaid := tf.LambdaFunctionAssociationID (d.Get "instance_id") (d.Get "function_arn")
  let sent := AssociateLambdaFunctionWithContext conn ctx input w
  match sent.1 with
  | some err =>
    { diags := FromErr (some (GoError.errorString
        ("error creating Connect Lambda Function Association (" ++ lfaid ++ "): "
          ++ err.Error))),
      d := d, world := sent.2 }
  | none =>
    resourceAwsConnectLambdaFunctionAssociationRead tf conn ctx (d.SetId lfaid) sent.2

/-- The function `resourceAwsConnectLambdaFunctionAssociationDelete`.  The context
argument is not passed on: the source calls `conn.DisassociateLambdaFunction(input)`. -/
def resourceAwsConnectLambdaFunctionAssociationDelete {σ : Type} (tf : Tfconnect)
    (conn : ConnectConn σ) (_ctx : Context) (d : ResourceData) (w : World σ) : Outcome σ :=
  let parsed := tf.LambdaFunctionAssociationParseID d.Id
  let instanceID := parsed.1
  let functionArn := parsed.2.1
  match parsed.2.2 with
  | some err => { diags := FromErr (some err), d := d, world := w }
  | none =>
    let input : DisassociateLambdaFunctionInput :=
      { InstanceId := instanceID, FunctionArn := functionArn }
    let sent := DisassociateLambdaFunction conn input w
    match sent.1 with
    | some err =>
      { diags := FromErr (some (GoError.wrapError
          ("error deleting Connect Lambda Function Association (" ++ d.Id ++ "): "
            ++ err.Error) err)),
        d := d, world := sent.2 }
    | none => { diags := [], d := d, world := sent.2 }

/-! ## Collaborators modelled from the specification

Concrete stand-ins for the three absent collaborators.  The general theorems do not
depend on them; they give the concrete inputs at which the theorems are instantiated
and the code is evaluated. -/

/-- Modelled from the spec: helper of the Identifier Codec (package `tfconnect`, absent
from the source file).  True when the first list is an initial segment of the second. -/
def startsWith : List Char → List Char → Bool
  | [], _ => true
  | _ :: _, [] => false
  | a :: as, b :: bs => a == b && startsWith as bs

/-- Modelled from the spec: helper of the Identifier Codec (package `tfconnect`, absent
from the source file).  Splits the last argument on every occurrence of the separator
`sep`, left to right.
`skip` counts separator characters still to be dropped and `cur` holds the current
component in reverse. -/
def splitAux (sep : List Char) : Nat → List Char → List Char → List (List Char)
  | _, cur, [] => [cur.reverse]
  | skip + 1, cur, _ :: cs => splitAux sep skip cur cs
  | 0, cur, c :: cs =>
    if startsWith sep (c :: cs) then cur.reverse :: splitAux sep (sep.length - 1) [] cs
    else splitAux sep 0 (c :: cur) cs

/-- Modelled from the spec: helper of the Identifier Codec (package `tfconnect`, absent
from the source file).  The components of `s` between occurrences of `sep`. -/
def splitOnSeparator (sep s : String) : List String :=
  (splitAux sep.data 0 [] s.data).map String.mk

/-- Modelled from the spec: helper of the Identifier Codec (package `tfconnect`, absent
from the source file).  True when `s` contains the separator `sep`. -/
def containsSeparator (sep s : String) : Bool :=
  decide (1 < (splitOnSeparator sep s).length)

/-- Modelled from the spec: the Identifier Codec's `encode`, in package `tfconnect`
(function `LambdaFunctionAssociationID`), absent from the source file.  "Concatenates the
two values with a fixed separator.  Fails with `EncodingError` if either input contains
the separator." -/
def encode (sep a b : String) : Except GoError String :=
  if containsSeparator sep a || containsSeparator sep b then
    Except.error (GoError.errorString ("EncodingError: component contains " ++ sep))
  else Except.ok (a ++ sep ++ b)

/-- Modelled from the spec: the Identifier Codec's `decode`, in package `tfconnect`
(function `LambdaFunctionAssociationParseID`), absent from the source file.  "Splits on
the separator.  Fails with `MalformedIdentifierError` when the separator is absent or the
split does not yield exactly two non-empty components."  Returned in the shape the
source destructures: two strings and an error, the strings empty on failure. -/
def decode (sep id : String) : String × String × Option GoError :=
  match splitOnSeparator sep id with
  | [a, b] =>
    if a ≠ "" ∧ b ≠ "" then (a, b, none)
    else ("", "", some (GoError.errorString ("MalformedIdentifierError: " ++ id)))
  | _ => ("", "", some (GoError.errorString ("MalformedIdentifierError: " ++ id)))

/-- Modelled from the spec: the package `tfconnect` with separator `sep`, in the shape
the source calls it.  The source uses the result of `LambdaFunctionAssociationID`
directly as a string, so the join is all that can be observed of `encode` there. -/
def specCodec (sep : String) : Tfconnect :=
  { LambdaFunctionAssociationID := fun a b => a ++ sep ++ b,
    LambdaFunctionAssociationParseID := decode sep }

/-- Modelled from the spec: the state of the remote control plane behind the transport
client, absent from the source file.  `functions` are the associations (instance id,
function ARN) currently held; `outage`, when set, is the transport fault every call
meets; `listDenied` says whether the listing call alone is refused; `reportsMissing`
says whether disassociating an absent association is reported as an error instead of
being a no-op. -/
structure Remote where
  functions : List (String × String)
  outage : Option String
  listDenied : Bool
  reportsMissing : Bool
deriving DecidableEq, Repr

/-- Modelled from the spec: `TransportError`, the fault a remote call meets before it
reaches the control plane: a cancelled context, or the outage in force. -/
def transportFault (ctx : Context) (r : Remote) : Option GoError :=
  if ctx.cancelled then some (GoError.errorString "RequestCanceled: context canceled")
  else r.outage.map GoError.errorString

/-- Modelled from the spec: the transport client's `associate`, `disassociate` and the
Existence Finder over `Remote`, absent from the source file.  The finder "lists all
associations currently attached to `instanceID` ... and returns the matching entry's
identifier if present, otherwise a distinct `NotFound` result (not an error)" and
"surfaces `TransportError` unchanged if the listing call itself fails"; scanning every
page is scanning all entries of the instance. -/
def specConn : ConnectConn Remote :=
  { associateLambdaFunction := fun ctx i f r =>
      match transportFault ctx r with
      | some e => (some e, r)
      | none =>
        if (i, f) ∈ r.functions then (none, r)
        else (none, { r with functions := r.functions ++ [(i, f)] }),
    disassociateLambdaFunction := fun ctx i f r =>
      match transportFault ctx r with
      | some e => (some e, r)
      | none =>
        if (i, f) ∈ r.functions then
          (none, { r with functions := r.functions.filter (fun p => p ≠ (i, f)) })
        else if r.reportsMissing then
          (some (GoError.errorString "ResourceNotFoundException: association not found"), r)
        else (none, r),
    lambdaFunctionAssociationByArn := fun ctx i f r =>
      match transportFault ctx r with
      | some e => ("", some e)
      | none =>
        if r.listDenied then
          ("", some (GoError.errorString "AccessDeniedException: listing not authorized"))
        else if f ∈ (r.functions.filter (fun p => p.1 = i)).map (fun p => p.2) then (f, none)
        else ("", none) }

/-! ## Reading the model -/

/-- The context a recorded remote call was sent under. -/
def RemoteCall.context : RemoteCall → Context
  | .associate ctx _ _ => ctx
  | .find ctx _ _ => ctx
  | .disassociate ctx _ _ => ctx

/-- The `Error` diagnostic with the given summary, as `diag.FromErr` builds it. -/
def errorDiag (summary : String) : Diagnostics :=
  [{ Severity := Severity.Error, Summary := summary }]

/-! ## Sample inputs -/

/-- A Lambda function ARN. -/
def sampleArn : String := "arn:aws:lambda:us-east-1:123456789012:function:fn"

/-- A live caller context with a deadline. -/
def callerCtx : Context := { deadline := some 30, cancelled := false }

/-- A caller context that has already been cancelled. -/
def cancelledCtx : Context := { deadline := some 30, cancelled := true }

/-- A remote holding no association, with no outage. -/
def emptyRemote : Remote :=
  { functions := [], outage := none, listDenied := false, reportsMissing := false }

/-- A remote holding the association of `sampleArn` with instance `inst-1`. -/
def associatedRemote : Remote :=
  { functions := [("inst-1", sampleArn)], outage := none, listDenied := false,
    reportsMissing := false }

/-- A remote holding that association which reports the disassociation of an absent
association as `ResourceNotFoundException`. -/
def strictRemote : Remote :=
  { functions := [("inst-1", sampleArn)], outage := none, listDenied := false,
    reportsMissing := true }

/-- A remote in which every call meets a throttling fault. -/
def throttledRemote : Remote :=
  { functions := [("inst-1", sampleArn)], outage := some "ThrottlingException: rate exceeded",
    listDenied := false, reportsMissing := false }

/-- A remote holding no association whose listing call is refused. -/
def listDeniedRemote : Remote :=
  { functions := [], outage := none, listDenied := true, reportsMissing := false }

/-- A world with the given remote and no call issued yet. -/
def freshWorld (r : Remote) : World Remote := { remote := r, calls := [] }

/-- Resource data as Create receives it: the two configured attributes, no id yet. -/
def plannedData (instanceID functionArn : String) : ResourceData :=
  { id := "", instance_id := instanceID, function_arn := functionArn, written := [] }

/-- Resource data holding only a stored id, as after an import. -/
def storedData (id : String) : ResourceData :=
  { id := id, instance_id := "", function_arn := "", written := [] }

/-! ## Basic facts about the embedding -/

theorem Get_instance_id (d : ResourceData) : d.Get "instance_id" = d.instance_id := by
  simp [ResourceData.Get]

theorem Get_function_arn (d : ResourceData) : d.Get "function_arn" = d.function_arn := by
  simp [ResourceData.Get]

theorem Set_both (d : ResourceData) (a b : String) :
    (d.Set "function_arn" b).Set "instance_id" a =
      { id := d.id, instance_id := a, function_arn := b,
        written := d.written ++ ["function_arn", "instance_id"] } := by
  simp [ResourceData.Set]

/-- Read always sends the finder call, with whatever pair the decoder returned and under
the caller's context, and changes nothing else in the world. -/
theorem read_world {σ : Type} (tf : Tfconnect) (conn : ConnectConn σ) (ctx : Context)
    (d : ResourceData) (w : World σ) :
    (resourceAwsConnectLambdaFunctionAssociationRead tf conn ctx d w).world =
      { remote := w.remote,
        calls := w.calls ++ [RemoteCall.find ctx (tf.LambdaFunctionAssociationParseID d.id).1
          (tf.LambdaFunctionAssociationParseID d.id).2.1] } := by
  unfold resourceAwsConnectLambdaFunctionAssociationRead
  simp only [LambdaFunctionAssociationByArnWithContext, ResourceData.Id]
  split
  · rfl
  · split <;> rfl

/-- Read when the finder returns an error. -/
theorem read_finder_error {σ : Type} (tf : Tfconnect) (conn : ConnectConn σ) (ctx : Context)
    (d : ResourceData) (w : World σ) (err : GoError)
    (h : (conn.lambdaFunctionAssociationByArn ctx (tf.LambdaFunctionAssociationParseID d.id).1
      (tf.LambdaFunctionAssociationParseID d.id).2.1 w.remote).2 = some err) :
    (resourceAwsConnectLambdaFunctionAssociationRead tf conn ctx d w).diags =
        errorDiag ("error finding Lambda Association by Function ARN ("
          ++ (tf.LambdaFunctionAssociationParseID d.id).2.1 ++ "): " ++ err.Error) ∧
      (resourceAwsConnectLambdaFunctionAssociationRead tf conn ctx d w).d = d := by
  unfold resourceAwsConnectLambdaFunctionAssociationRead
  simp [LambdaFunctionAssociationByArnWithContext, ResourceData.Id, h, FromErr, errorDiag,
    GoError.Error]

/-- Read when the finder returns the empty ARN and no error. -/
theorem read_not_found {σ : Type} (tf : Tfconnect) (conn : ConnectConn σ) (ctx : Context)
    (d : ResourceData) (w : World σ)
    (h : conn.lambdaFunctionAssociationByArn ctx (tf.LambdaFunctionAssociationParseID d.id).1
      (tf.LambdaFunctionAssociationParseID d.id).2.1 w.remote = ("", none)) :
    (resourceAwsConnectLambdaFunctionAssociationRead tf conn ctx d w).diags =
        errorDiag ("error finding Lambda Association Function ARN ("
          ++ (tf.LambdaFunctionAssociationParseID d.id).2.1 ++ "): not found") ∧
      (resourceAwsConnectLambdaFunctionAssociationRead tf conn ctx d w).d = d := by
  unfold resourceAwsConnectLambdaFunctionAssociationRead
  simp [LambdaFunctionAssociationByArnWithContext, ResourceData.Id, h, FromErr, errorDiag,
    GoError.Error]

/-- Read when the finder returns a non-empty ARN and no error. -/
theorem read_found {σ : Type} (tf : Tfconnect) (conn : ConnectConn σ) (ctx : Context)
    (d : ResourceData) (w : World σ) (arn : String) (hne : arn ≠ "")
    (h : conn.lambdaFunctionAssociationByArn ctx (tf.LambdaFunctionAssociationParseID d.id).1
      (tf.LambdaFunctionAssociationParseID d.id).2.1 w.remote = (arn, none)) :
    (resourceAwsConnectLambdaFunctionAssociationRead tf conn ctx d w).diags = [] ∧
      (resourceAwsConnectLambdaFunctionAssociationRead tf conn ctx d w).d =
        { id := d.id, instance_id := (tf.LambdaFunctionAssociationParseID d.id).1,
          function_arn := (tf.LambdaFunctionAssociationParseID d.id).2.1,
          written := d.written ++ ["function_arn", "instance_id"] } := by
  unfold resourceAwsConnectLambdaFunctionAssociationRead
  simp [LambdaFunctionAssociationByArnWithContext, ResourceData.Id, h, hne, Set_both]

/-- Read succeeds only when the finder returned a non-empty ARN and no error. -/
theorem read_success_found {σ : Type} (tf : Tfconnect) (conn : ConnectConn σ) (ctx : Context)
    (d : ResourceData) (w : World σ)
    (h : (resourceAwsConnectLambdaFunctionAssociationRead tf conn ctx d w).diags = []) :
    ∃ arn, arn ≠ "" ∧
      conn.lambdaFunctionAssociationByArn ctx (tf.LambdaFunctionAssociationParseID d.id).1
        (tf.LambdaFunctionAssociationParseID d.id).2.1 w.remote = (arn, none) := by
  rcases hf : conn.lambdaFunctionAssociationByArn ctx (tf.LambdaFunctionAssociationParseID d.id).1
    (tf.LambdaFunctionAssociationParseID d.id).2.1 w.remote with ⟨arn, e⟩
  cases e with
  | some err =>
    have := (read_finder_error tf conn ctx d w err (by rw [hf])).1
    rw [this] at h
    simp [errorDiag] at h
  | none =>
    by_cases hne : arn = ""
    · subst hne
      have := (read_not_found tf conn ctx d w hf).1
      rw [this] at h
      simp [errorDiag] at h
    · exact ⟨arn, hne, rfl⟩

/-- Create when the associate call fails. -/
theorem create_associate_error {σ : Type} (tf : Tfconnect) (conn : ConnectConn σ)
    (ctx : Context) (d : ResourceData) (w : World σ) (err : GoError)
    (h : (conn.associateLambdaFunction ctx d.instance_id d.function_arn w.remote).1 = some err) :
    resourceAwsConnectLambdaFunctionAssociationCreate tf conn ctx d w =
      { diags := errorDiag ("error creating Connect Lambda Function Association ("
          ++ tf.LambdaFunctionAssociationID d.instance_id d.function_arn ++ "): " ++ err.Error),
        d := d,
        world := { remote := (conn.associateLambdaFunction ctx d.instance_id d.function_arn
                      w.remote).2,
                   calls := w.calls ++ [RemoteCall.associate ctx d.instance_id d.function_arn] } } := by
  unfold resourceAwsConnectLambdaFunctionAssociationCreate
  simp only [AssociateLambdaFunctionWithContext, Get_instance_id, Get_function_arn, h]
  rfl

/-- Create when the associate call succeeds: the id is set and Read takes over. -/
theorem create_associate_ok {σ : Type} (tf : Tfconnect) (conn : ConnectConn σ)
    (ctx : Context) (d : ResourceData) (w : World σ)
    (h : (conn.associateLambdaFunction ctx d.instance_id d.function_arn w.remote).1 = none) :
    resourceAwsConnectLambdaFunctionAssociationCreate tf conn ctx d w =
      resourceAwsConnectLambdaFunctionAssociationRead tf conn ctx
        (d.SetId (tf.LambdaFunctionAssociationID d.instance_id d.function_arn))
        { remote := (conn.associateLambdaFunction ctx d.instance_id d.function_arn w.remote).2,
          calls := w.calls ++ [RemoteCall.associate ctx d.instance_id d.function_arn] } := by
  unfold resourceAwsConnectLambdaFunctionAssociationCreate
  simp only [AssociateLambdaFunctionWithContext, Get_instance_id, Get_function_arn, h]

/-- Delete when the decoder rejects the id. -/
theorem delete_rejected {σ : Type} (tf : Tfconnect) (conn : ConnectConn σ) (ctx : Context)
    (d : ResourceData) (w : World σ) (err : GoError)
    (h : (tf.LambdaFunctionAssociationParseID d.id).2.2 = some err) :
    resourceAwsConnectLambdaFunctionAssociationDelete tf conn ctx d w =
      { diags := errorDiag err.Error, d := d, world := w } := by
  unfold resourceAwsConnectLambdaFunctionAssociationDelete
  simp only [ResourceData.Id, h]
  rfl

/-- Delete when the decoder accepts the id: outcome by the result of the disassociate
call, which is sent under the background context. -/
theorem delete_accepted {σ : Type} (tf : Tfconnect) (conn : ConnectConn σ) (ctx : Context)
    (d : ResourceData) (w : World σ)
    (h : (tf.LambdaFunctionAssociationParseID d.id).2.2 = none) :
    resourceAwsConnectLambdaFunctionAssociationDelete tf conn ctx d w =
      { diags :=
          match (conn.disassociateLambdaFunction Context.background
            (tf.LambdaFunctionAssociationParseID d.id).1
            (tf.LambdaFunctionAssociationParseID d.id).2.1 w.remote).1 with
          | some err => errorDiag ("error deleting Connect Lambda Function Association ("
              ++ d.id ++ "): " ++ err.Error)
          | none => [],
        d := d,
        world := { remote := (conn.disassociateLambdaFunction Context.background
                      (tf.LambdaFunctionAssociationParseID d.id).1
                      (tf.LambdaFunctionAssociationParseID d.id).2.1 w.remote).2,
                   calls := w.calls ++ [RemoteCall.disassociate Context.background
                      (tf.LambdaFunctionAssociationParseID d.id).1
                      (tf.LambdaFunctionAssociationParseID d.id).2.1] } } := by
  unfold resourceAwsConnectLambdaFunctionAssociationDelete
  simp only [ResourceData.Id, h, DisassociateLambdaFunction,
    DisassociateLambdaFunctionWithContext]
  split <;> rfl

/-- Read never changes the id. -/
theorem read_keeps_id {σ : Type} (tf : Tfconnect) (conn : ConnectConn σ) (ctx : Context)
    (d : ResourceData) (w : World σ) :
    (resourceAwsConnectLambdaFunctionAssociationRead tf conn ctx d w).d.id = d.id := by
  unfold resourceAwsConnectLambdaFunctionAssociationRead
  simp only [LambdaFunctionAssociationByArnWithContext, ResourceData.Id]
  split
  · rfl
  · split
    · rfl
    · simp [Set_both]

/-- Every call Read issues is sent under the context Read was called with. -/
theorem read_calls_context {σ : Type} (tf : Tfconnect) (conn : ConnectConn σ) (ctx : Context)
    (d : ResourceData) (w : World σ) :
    ∃ issued, (resourceAwsConnectLambdaFunctionAssociationRead tf conn ctx d w).world.calls =
        w.calls ++ issued ∧ ∀ c ∈ issued, c.context = ctx := by
  rw [read_world]
  refine ⟨_, rfl, ?_⟩
  intro c hc
  rw [List.mem_singleton] at hc
  rw [hc]
  rfl

/-- Every call Create issues is sent under the context Create was called with. -/
theorem create_calls_context {σ : Type} (tf : Tfconnect) (conn : ConnectConn σ)
    (ctx : Context) (d : ResourceData) (w : World σ) :
    ∃ issued, (resourceAwsConnectLambdaFunctionAssociationCreate tf conn ctx d w).world.calls =
        w.calls ++ issued ∧ ∀ c ∈ issued, c.context = ctx := by
  cases h : (conn.associateLambdaFunction ctx d.instance_id d.function_arn w.remote).1 with
  | some err =>
    rw [create_associate_error tf conn ctx d w err h]
    refine ⟨_, rfl, ?_⟩
    intro c hc
    rw [List.mem_singleton] at hc
    rw [hc]
    rfl
  | none =>
    rw [create_associate_ok tf conn ctx d w h, read_world]
    refine ⟨_, List.append_assoc _ _ _, ?_⟩
    intro c hc
    simp only [List.singleton_append, List.mem_cons, List.mem_singleton, List.not_mem_nil,
      or_false] at hc
    rcases hc with hc | hc <;> rw [hc] <;> rfl

/-- Every call Delete issues is sent under the background context, whatever context
Delete was called with. -/
theorem delete_calls_context {σ : Type} (tf : Tfconnect) (conn : ConnectConn σ)
    (ctx : Context) (d : ResourceData) (w : World σ) :
    ∃ issued, (resourceAwsConnectLambdaFunctionAssociationDelete tf conn ctx d w).world.calls =
        w.calls ++ issued ∧ ∀ c ∈ issued, c.context = Context.background := by
  cases h : (tf.LambdaFunctionAssociationParseID d.id).2.2 with
  | some err =>
    rw [delete_rejected tf conn ctx d w err h]
    exact ⟨[], (List.append_nil _).symm, fun c hc => by cases hc⟩
  | none =>
    rw [delete_accepted tf conn ctx d w h]
    refine ⟨_, rfl, ?_⟩
    intro c hc
    rw [List.mem_singleton] at hc
    rw [hc]
    rfl

/-! ## The claims -/

/-- C1, evaluated on the code: the stored id `inst-1` has no separator and the decoder
rejects it, yet Read does not return the decoder's error.  It sends the finder call,
with the empty pair the decoder returned, and reports the finder's not-found. -/
theorem read_malformed_id_reaches_finder :
    (specCodec "::").LambdaFunctionAssociationParseID "inst-1" =
        ("", "", some (GoError.errorString "MalformedIdentifierError: inst-1")) ∧
      resourceAwsConnectLambdaFunctionAssociationRead (specCodec "::") specConn callerCtx
          (storedData "inst-1") (freshWorld associatedRemote) =
        { diags := errorDiag "error finding Lambda Association Function ARN (): not found",
          d := storedData "inst-1",
          world := { remote := associatedRemote,
                     calls := [RemoteCall.find callerCtx "" ""] } } := by
  decide

/-- C2, refuted as stated: on a remote that reports the disassociation of an absent
association as not found, a first Delete of a well-formed id succeeds and a second
Delete of the same id fails with the delete error wrapping that report. -/
theorem delete_twice_second_fails :
    (specCodec "::").LambdaFunctionAssociationParseID ("inst-1::" ++ sampleArn) =
        ("inst-1", sampleArn, none) ∧
      (resourceAwsConnectLambdaFunctionAssociationDelete (specCodec "::") specConn callerCtx
          (storedData ("inst-1::" ++ sampleArn)) (freshWorld strictRemote)).diags = [] ∧
      (specConn.disassociateLambdaFunction Context.background "inst-1" sampleArn
          (resourceAwsConnectLambdaFunctionAssociationDelete (specCodec "::") specConn callerCtx
            (storedData ("inst-1::" ++ sampleArn)) (freshWorld strictRemote)).world.remote).1 =
        some (GoError.errorString "ResourceNotFoundException: association not found") ∧
      (resourceAwsConnectLambdaFunctionAssociationDelete (specCodec "::") specConn callerCtx
          (storedData ("inst-1::" ++ sampleArn))
          (resourceAwsConnectLambdaFunctionAssociationDelete (specCodec "::") specConn callerCtx
            (storedData ("inst-1::" ++ sampleArn)) (freshWorld strictRemote)).world).diags =
        errorDiag ("error deleting Connect Lambda Function Association (inst-1::" ++ sampleArn
          ++ "): ResourceNotFoundException: association not found") := by
  decide

/-- C2, amended: for every well-formed id, Delete succeeds exactly when the disassociate
call for the decoded pair returns no error; any error it returns, not-found included,
makes Delete fail with the delete error carrying it.  Hence two Deletes of the same id
both succeed exactly when the disassociate call returns no error both times. -/
theorem delete_succeeds_iff_disassociate_ok {σ : Type} (tf : Tfconnect)
    (conn : ConnectConn σ) (ctx : Context) (d : ResourceData) (w : World σ) (a b : String)
    (hwf : tf.LambdaFunctionAssociationParseID d.id = (a, b, none)) :
    ((resourceAwsConnectLambdaFunctionAssociationDelete tf conn ctx d w).diags = [] ↔
        (conn.disassociateLambdaFunction Context.background a b w.remote).1 = none) ∧
      (∀ err, (conn.disassociateLambdaFunction Context.background a b w.remote).1 = some err →
        (resourceAwsConnectLambdaFunctionAssociationDelete tf conn ctx d w).diags =
          errorDiag ("error deleting Connect Lambda Function Association (" ++ d.id ++ "): "
            ++ err.Error)) ∧
      (((resourceAwsConnectLambdaFunctionAssociationDelete tf conn ctx d w).diags = [] ∧
          (resourceAwsConnectLambdaFunctionAssociationDelete tf conn ctx
            (resourceAwsConnectLambdaFunctionAssociationDelete tf conn ctx d w).d
            (resourceAwsConnectLambdaFunctionAssociationDelete tf conn ctx d w).world).diags
              = []) ↔
        ((conn.disassociateLambdaFunction Context.background a b w.remote).1 = none ∧
          (conn.disassociateLambdaFunction Context.background a b
            (conn.disassociateLambdaFunction Context.background a b w.remote).2).1 = none)) := by
  have h1 : (tf.LambdaFunctionAssociationParseID d.id).1 = a := by rw [hwf]
  have h2 : (tf.LambdaFunctionAssociationParseID d.id).2.1 = b := by rw [hwf]
  have h3 : (tf.LambdaFunctionAssociationParseID d.id).2.2 = none := by rw [hwf]
  have key : ∀ (c : Context) (v : World σ),
      (resourceAwsConnectLambdaFunctionAssociationDelete tf conn c d v).diags = [] ↔
        (conn.disassociateLambdaFunction Context.background a b v.remote).1 = none := by
    intro c v
    rw [delete_accepted tf conn c d v h3, h1, h2]
    cases hr : (conn.disassociateLambdaFunction Context.background a b v.remote).1 with
    | none => simp
    | some err => simp [errorDiag]
  refine ⟨key ctx w, ?_, ?_⟩
  · intro err herr
    rw [delete_accepted tf conn ctx d w h3, h1, h2]
    simp only [herr]
  · have hd : (resourceAwsConnectLambdaFunctionAssociationDelete tf conn ctx d w).d = d := by
      rw [delete_accepted tf conn ctx d w h3]
    have hr : (resourceAwsConnectLambdaFunctionAssociationDelete tf conn ctx d w).world.remote
        = (conn.disassociateLambdaFunction Context.background a b w.remote).2 := by
      rw [delete_accepted tf conn ctx d w h3, h1, h2]
    rw [hd, key ctx w, key ctx _, hr]

/-- Witness for C2 (amended), on the remote for which absence is a no-op. -/
theorem delete_succeeds_iff_disassociate_ok_witness :
    (resourceAwsConnectLambdaFunctionAssociationDelete (specCodec "::") specConn callerCtx
        (storedData ("inst-1::" ++ sampleArn)) (freshWorld associatedRemote)).diags = [] ↔
      (specConn.disassociateLambdaFunction Context.background "inst-1" sampleArn
        (freshWorld associatedRemote).remote).1 = none :=
  (delete_succeeds_iff_disassociate_ok (specCodec "::") specConn callerCtx
    (storedData ("inst-1::" ++ sampleArn)) (freshWorld associatedRemote) "inst-1" sampleArn
    (by decide)).1

/-- C3, refuted as stated: the codec round-trips on `inst-1` and `sampleArn`, Create
succeeds under a live context, and the remote state is left as Create left it; a
following Read of the tracked state under a cancelled context still fails, with the
finder error. -/
theorem read_after_create_fails_when_cancelled :
    (specCodec "::").LambdaFunctionAssociationParseID
        ((specCodec "::").LambdaFunctionAssociationID "inst-1" sampleArn) =
        ("inst-1", sampleArn, none) ∧
      (resourceAwsConnectLambdaFunctionAssociationCreate (specCodec "::") specConn callerCtx
        (plannedData "inst-1" sampleArn) (freshWorld emptyRemote)).diags = [] ∧
      (resourceAwsConnectLambdaFunctionAssociationCreate (specCodec "::") specConn callerCtx
        (plannedData "inst-1" sampleArn) (freshWorld emptyRemote)).world.remote =
          associatedRemote ∧
      resourceAwsConnectLambdaFunctionAssociationRead (specCodec "::") specConn cancelledCtx
          (resourceAwsConnectLambdaFunctionAssociationCreate (specCodec "::") specConn callerCtx
            (plannedData "inst-1" sampleArn) (freshWorld emptyRemote)).d
          (freshWorld associatedRemote) =
        { diags := errorDiag ("error finding Lambda Association by Function ARN ("
            ++ sampleArn ++ "): RequestCanceled: context canceled"),
          d := { id := "inst-1::" ++ sampleArn, instance_id := "inst-1",
                 function_arn := sampleArn,
                 written := ["id", "function_arn", "instance_id"] },
          world := { remote := associatedRemote,
                     calls := [RemoteCall.find cancelledCtx "inst-1" sampleArn] } } := by
  decide

/-- C3, amended: when the codec round-trips on `(instance_id, function_arn) = (a, b)` and
Create succeeds, the tracked state holds the composite id, `instance_id = a` and
`function_arn = b`.  A following Read of any resource data whose id is that composite
id, whatever attributes it holds, against a world whose remote state is the one Create
left, under any context for which the finder answers on that remote as it does under
the context of Create, succeeds, keeps the id and sets the attributes to `(a, b)`. -/
theorem create_then_read_returns_pair {σ : Type} (tf : Tfconnect) (conn : ConnectConn σ)
    (ctx : Context) (d : ResourceData) (w : World σ)
    (hrt : tf.LambdaFunctionAssociationParseID
        (tf.LambdaFunctionAssociationID d.instance_id d.function_arn) =
      (d.instance_id, d.function_arn, none))
    (hok : (resourceAwsConnectLambdaFunctionAssociationCreate tf conn ctx d w).diags = []) :
    (resourceAwsConnectLambdaFunctionAssociationCreate tf conn ctx d w).d.id =
        tf.LambdaFunctionAssociationID d.instance_id d.function_arn ∧
      (resourceAwsConnectLambdaFunctionAssociationCreate tf conn ctx d w).d.instance_id =
        d.instance_id ∧
      (resourceAwsConnectLambdaFunctionAssociationCreate tf conn ctx d w).d.function_arn =
        d.function_arn ∧
      ∀ (ctx2 : Context) (d2 : ResourceData) (w2 : World σ),
        d2.id = tf.LambdaFunctionAssociationID d.instance_id d.function_arn →
        w2.remote =
          (resourceAwsConnectLambdaFunctionAssociationCreate tf conn ctx d w).world.remote →
        conn.lambdaFunctionAssociationByArn ctx2 d.instance_id d.function_arn w2.remote =
          conn.lambdaFunctionAssociationByArn ctx d.instance_id d.function_arn w2.remote →
        (resourceAwsConnectLambdaFunctionAssociationRead tf conn ctx2 d2 w2).diags = [] ∧
          (resourceAwsConnectLambdaFunctionAssociationRead tf conn ctx2 d2 w2).d.id =
            tf.LambdaFunctionAssociationID d.instance_id d.function_arn ∧
          (resourceAwsConnectLambdaFunctionAssociationRead tf conn ctx2 d2 w2).d.instance_id =
            d.instance_id ∧
          (resourceAwsConnectLambdaFunctionAssociationRead tf conn ctx2 d2 w2).d.function_arn =
            d.function_arn ∧
          (resourceAwsConnectLambdaFunctionAssociationRead tf conn ctx2 d2 w2).world.remote =
            w2.remote := by
  cases hassoc : (conn.associateLambdaFunction ctx d.instance_id d.function_arn w.remote).1 with
  | some err =>
    rw [create_associate_error tf conn ctx d w err hassoc] at hok
    simp [errorDiag] at hok
  | none =>
    have hc := create_associate_ok tf conn ctx d w hassoc
    rw [hc] at hok ⊢
    have hid : (d.SetId (tf.LambdaFunctionAssociationID d.instance_id d.function_arn)).id =
        tf.LambdaFunctionAssociationID d.instance_id d.function_arn := rfl
    obtain ⟨arn, hne, hf⟩ := read_success_found tf conn ctx _ _ hok
    have hread := (read_found tf conn ctx _ _ arn hne hf).2
    rw [hread, read_world]
    simp only [hid, hrt] at hf ⊢
    refine ⟨trivial, trivial, trivial, ?_⟩
    intro ctx2 d2 w2 hid2 hrem hctx
    have hf2 : conn.lambdaFunctionAssociationByArn ctx2
        (tf.LambdaFunctionAssociationParseID d2.id).1
        (tf.LambdaFunctionAssociationParseID d2.id).2.1 w2.remote = (arn, none) := by
      rw [hid2, hrt]
      simp only []
      rw [hctx, hrem]
      exact hf
    have hr2 := read_found tf conn ctx2 d2 w2 arn hne hf2
    rw [hr2.1, hr2.2, read_world, hid2, hrt]
    exact ⟨rfl, rfl, rfl, rfl, rfl⟩

/-- Witness for C3 (amended): Create of `inst-1` and `sampleArn` on the empty remote, then
a Read, under another live context, of resource data that holds only the composite id. -/
theorem create_then_read_returns_pair_witness :
    (specCodec "::").LambdaFunctionAssociationParseID
        ((specCodec "::").LambdaFunctionAssociationID "inst-1" sampleArn) =
        ("inst-1", sampleArn, none) ∧
      (resourceAwsConnectLambdaFunctionAssociationCreate (specCodec "::") specConn callerCtx
        (plannedData "inst-1" sampleArn) (freshWorld emptyRemote)).diags = [] ∧
      (resourceAwsConnectLambdaFunctionAssociationCreate (specCodec "::") specConn callerCtx
        (plannedData "inst-1" sampleArn) (freshWorld emptyRemote)).d.id =
          "inst-1::" ++ sampleArn ∧
      ((resourceAwsConnectLambdaFunctionAssociationRead (specCodec "::") specConn
          { deadline := some 90, cancelled := false }
          (storedData ("inst-1::" ++ sampleArn)) (freshWorld associatedRemote)).diags = [] ∧
        (resourceAwsConnectLambdaFunctionAssociationRead (specCodec "::") specConn
          { deadline := some 90, cancelled := false }
          (storedData ("inst-1::" ++ sampleArn)) (freshWorld associatedRemote)).d.id =
            "inst-1::" ++ sampleArn ∧
        (resourceAwsConnectLambdaFunctionAssociationRead (specCodec "::") specConn
          { deadline := some 90, cancelled := false }
          (storedData ("inst-1::" ++ sampleArn)) (freshWorld associatedRemote)).d.instance_id =
            "inst-1" ∧
        (resourceAwsConnectLambdaFunctionAssociationRead (specCodec "::") specConn
          { deadline := some 90, cancelled := false }
          (storedData ("inst-1::" ++ sampleArn)) (freshWorld associatedRemote)).d.function_arn =
            sampleArn ∧
        (resourceAwsConnectLambdaFunctionAssociationRead (specCodec "::") specConn
          { deadline := some 90, cancelled := false }
          (storedData ("inst-1::" ++ sampleArn)) (freshWorld associatedRemote)).world.remote =
            associatedRemote) :=
  ⟨by decide, by decide,
   (create_then_read_returns_pair (specCodec "::") specConn callerCtx
      (plannedData "inst-1" sampleArn) (freshWorld emptyRemote) (by decide) (by decide)).1,
   (create_then_read_returns_pair (specCodec "::") specConn callerCtx
      (plannedData "inst-1" sampleArn) (freshWorld emptyRemote) (by decide) (by decide)).2.2.2
        { deadline := some 90, cancelled := false }
        (storedData ("inst-1::" ++ sampleArn)) (freshWorld associatedRemote)
        (by decide) (by decide) (by decide)⟩

/-- C4: when the associate call fails with `err`, Create returns one error diagnostic
whose summary carries the would-be composite id and the text of `err`; the resource
data is returned untouched (no id set, no attribute written) and the associate call
is the only remote call issued. -/
theorem create_failure_leaves_no_state {σ : Type} (tf : Tfconnect) (conn : ConnectConn σ)
    (ctx : Context) (d : ResourceData) (w : World σ) (err : GoError)
    (hfail : (conn.associateLambdaFunction ctx d.instance_id d.function_arn w.remote).1
      = some err) :
    (resourceAwsConnectLambdaFunctionAssociationCreate tf conn ctx d w).diags =
        [{ Severity := Severity.Error,
           Summary := "error creating Connect Lambda Function Association ("
             ++ tf.LambdaFunctionAssociationID d.instance_id d.function_arn ++ "): "
             ++ err.Error }] ∧
      (resourceAwsConnectLambdaFunctionAssociationCreate tf conn ctx d w).d = d ∧
      (resourceAwsConnectLambdaFunctionAssociationCreate tf conn ctx d w).d.written =
        d.written ∧
      (resourceAwsConnectLambdaFunctionAssociationCreate tf conn ctx d w).world.calls =
        w.calls ++ [RemoteCall.associate ctx d.instance_id d.function_arn] := by
  rw [create_associate_error tf conn ctx d w err hfail]
  exact ⟨rfl, rfl, rfl, rfl⟩

/-- Witness for C4: Create against a throttled remote. -/
theorem create_failure_leaves_no_state_witness :
    (specConn.associateLambdaFunction callerCtx "inst-1" sampleArn throttledRemote).1 =
        some (GoError.errorString "ThrottlingException: rate exceeded") ∧
      (resourceAwsConnectLambdaFunctionAssociationCreate (specCodec "::") specConn callerCtx
        (plannedData "inst-1" sampleArn) (freshWorld throttledRemote)).d =
          plannedData "inst-1" sampleArn ∧
      (resourceAwsConnectLambdaFunctionAssociationCreate (specCodec "::") specConn callerCtx
        (plannedData "inst-1" sampleArn) (freshWorld throttledRemote)).world.calls =
          [RemoteCall.associate callerCtx "inst-1" sampleArn] :=
  ⟨by decide,
   (create_failure_leaves_no_state (specCodec "::") specConn callerCtx
      (plannedData "inst-1" sampleArn) (freshWorld throttledRemote)
      (GoError.errorString "ThrottlingException: rate exceeded") (by decide)).2.1,
   (create_failure_leaves_no_state (specCodec "::") specConn callerCtx
      (plannedData "inst-1" sampleArn) (freshWorld throttledRemote)
      (GoError.errorString "ThrottlingException: rate exceeded") (by decide)).2.2.2⟩

/-- C5: when the associate call succeeds, Create sets the id to the composite id and
returns exactly what Read returns on that state; the finder call follows the associate
call, and Create reports success only if that finder call returned a non-empty ARN and
no error. -/
theorem create_result_is_read_result {σ : Type} (tf : Tfconnect) (conn : ConnectConn σ)
    (ctx : Context) (d : ResourceData) (w : World σ)
    (hok : (conn.associateLambdaFunction ctx d.instance_id d.function_arn w.remote).1 = none) :
    resourceAwsConnectLambdaFunctionAssociationCreate tf conn ctx d w =
        resourceAwsConnectLambdaFunctionAssociationRead tf conn ctx
          (d.SetId (tf.LambdaFunctionAssociationID d.instance_id d.function_arn))
          { remote := (conn.associateLambdaFunction ctx d.instance_id d.function_arn
              w.remote).2,
            calls := w.calls ++ [RemoteCall.associate ctx d.instance_id d.function_arn] } ∧
      (resourceAwsConnectLambdaFunctionAssociationCreate tf conn ctx d w).d.id =
        tf.LambdaFunctionAssociationID d.instance_id d.function_arn ∧
      (resourceAwsConnectLambdaFunctionAssociationCreate tf conn ctx d w).world.calls =
        w.calls ++ [RemoteCall.associate ctx d.instance_id d.function_arn,
          RemoteCall.find ctx
            (tf.LambdaFunctionAssociationParseID
              (tf.LambdaFunctionAssociationID d.instance_id d.function_arn)).1
            (tf.LambdaFunctionAssociationParseID
              (tf.LambdaFunctionAssociationID d.instance_id d.function_arn)).2.1] ∧
      ((resourceAwsConnectLambdaFunctionAssociationCreate tf conn ctx d w).diags = [] →
        ∃ arn, arn ≠ "" ∧
          conn.lambdaFunctionAssociationByArn ctx
            (tf.LambdaFunctionAssociationParseID
              (tf.LambdaFunctionAssociationID d.instance_id d.function_arn)).1
            (tf.LambdaFunctionAssociationParseID
              (tf.LambdaFunctionAssociationID d.instance_id d.function_arn)).2.1
            (conn.associateLambdaFunction ctx d.instance_id d.function_arn w.remote).2
            = (arn, none)) := by
  have hc := create_associate_ok tf conn ctx d w hok
  refine ⟨hc, ?_, ?_, ?_⟩
  · rw [hc, read_keeps_id]
    rfl
  · rw [hc, read_world]
    simp [ResourceData.SetId]
  · intro hs
    rw [hc] at hs
    exact read_success_found tf conn ctx _ _ hs

/-- Witness for C5: Create of `inst-1` and `sampleArn` on the empty remote. -/
theorem create_result_is_read_result_witness :
    (specConn.associateLambdaFunction callerCtx "inst-1" sampleArn emptyRemote).1 = none ∧
      (resourceAwsConnectLambdaFunctionAssociationCreate (specCodec "::") specConn callerCtx
        (plannedData "inst-1" sampleArn) (freshWorld emptyRemote)).world.calls =
          [RemoteCall.associate callerCtx "inst-1" sampleArn,
           RemoteCall.find callerCtx "inst-1" sampleArn] :=
  ⟨by decide,
   (create_result_is_read_result (specCodec "::") specConn callerCtx
      (plannedData "inst-1" sampleArn) (freshWorld emptyRemote) (by decide)).2.2.1⟩

/-- C6: for a well-formed id decoding to `(a, b)`: when the finder returns the empty ARN
with no error, Read fails with the not-found diagnostic and writes no attribute; when
the finder returns a non-empty ARN with no error, Read succeeds and sets `instance_id`
to `a` and `function_arn` to `b`. -/
theorem read_follows_finder {σ : Type} (tf : Tfconnect) (conn : ConnectConn σ)
    (ctx : Context) (d : ResourceData) (w : World σ) (a b : String)
    (hwf : tf.LambdaFunctionAssociationParseID d.id = (a, b, none)) :
    (conn.lambdaFunctionAssociationByArn ctx a b w.remote = ("", none) →
        (resourceAwsConnectLambdaFunctionAssociationRead tf conn ctx d w).diags =
            [{ Severity := Severity.Error,
               Summary := "error finding Lambda Association Function ARN (" ++ b
                 ++ "): not found" }] ∧
          (resourceAwsConnectLambdaFunctionAssociationRead tf conn ctx d w).d = d ∧
          (resourceAwsConnectLambdaFunctionAssociationRead tf conn ctx d w).d.written =
            d.written) ∧
      (∀ arn, arn ≠ "" → conn.lambdaFunctionAssociationByArn ctx a b w.remote = (arn, none) →
        (resourceAwsConnectLambdaFunctionAssociationRead tf conn ctx d w).diags = [] ∧
          (resourceAwsConnectLambdaFunctionAssociationRead tf conn ctx d w).d.instance_id = a ∧
          (resourceAwsConnectLambdaFunctionAssociationRead tf conn ctx d w).d.function_arn = b ∧
          (resourceAwsConnectLambdaFunctionAssociationRead tf conn ctx d w).d.id = d.id) := by
  have h1 : (tf.LambdaFunctionAssociationParseID d.id).1 = a := by rw [hwf]
  have h2 : (tf.LambdaFunctionAssociationParseID d.id).2.1 = b := by rw [hwf]
  constructor
  · intro hnf
    have h := read_not_found tf conn ctx d w (by rw [h1, h2]; exact hnf)
    rw [h2] at h
    refine ⟨h.1, h.2, ?_⟩
    rw [h.2]
  · intro arn hne hf
    have h := read_found tf conn ctx d w arn hne (by rw [h1, h2]; exact hf)
    rw [h.1, h.2, h1, h2]
    exact ⟨rfl, rfl, rfl, rfl⟩

/-- Witness for C6: Read of a well-formed id, absent on the empty remote and present on
the remote that holds the association. -/
theorem read_follows_finder_witness :
    (specCodec "::").LambdaFunctionAssociationParseID ("inst-1::" ++ sampleArn) =
        ("inst-1", sampleArn, none) ∧
      (resourceAwsConnectLambdaFunctionAssociationRead (specCodec "::") specConn callerCtx
        (storedData ("inst-1::" ++ sampleArn)) (freshWorld emptyRemote)).d =
          storedData ("inst-1::" ++ sampleArn) ∧
      (resourceAwsConnectLambdaFunctionAssociationRead (specCodec "::") specConn callerCtx
        (storedData ("inst-1::" ++ sampleArn)) (freshWorld associatedRemote)).diags = [] :=
  ⟨by decide,
   ((read_follows_finder (specCodec "::") specConn callerCtx
      (storedData ("inst-1::" ++ sampleArn)) (freshWorld emptyRemote) "inst-1" sampleArn
      (by decide)).1 (by decide)).2.1,
   ((read_follows_finder (specCodec "::") specConn callerCtx
      (storedData ("inst-1::" ++ sampleArn)) (freshWorld associatedRemote) "inst-1" sampleArn
      (by decide)).2 sampleArn (by decide) (by decide)).1⟩

/-- C7: an error `err` returned by a remote call is never turned into success.  Create
fails with it when the associate call returns it, and when the finder call of its
verification returns it; Read fails with it when the finder call returns it; Delete
fails with it when the disassociate call returns it.  Each failure is one error
diagnostic whose summary ends in the text of `err`. -/
theorem remote_error_is_returned {σ : Type} (tf : Tfconnect) (conn : ConnectConn σ)
    (ctx : Context) (d : ResourceData) (w : World σ) (err : GoError) :
    ((conn.associateLambdaFunction ctx d.instance_id d.function_arn w.remote).1 = some err →
        (resourceAwsConnectLambdaFunctionAssociationCreate tf conn ctx d w).diags =
          [{ Severity := Severity.Error,
             Summary := "error creating Connect Lambda Function Association ("
               ++ tf.LambdaFunctionAssociationID d.instance_id d.function_arn ++ "): "
               ++ err.Error }]) ∧
      ((conn.associateLambdaFunction ctx d.instance_id d.function_arn w.remote).1 = none →
        (conn.lambdaFunctionAssociationByArn ctx
          (tf.LambdaFunctionAssociationParseID
            (tf.LambdaFunctionAssociationID d.instance_id d.function_arn)).1
          (tf.LambdaFunctionAssociationParseID
            (tf.LambdaFunctionAssociationID d.instance_id d.function_arn)).2.1
          (conn.associateLambdaFunction ctx d.instance_id d.function_arn w.remote).2).2
            = some err →
        (resourceAwsConnectLambdaFunctionAssociationCreate tf conn ctx d w).diags =
          [{ Severity := Severity.Error,
             Summary := "error finding Lambda Association by Function ARN ("
               ++ (tf.LambdaFunctionAssociationParseID
                    (tf.LambdaFunctionAssociationID d.instance_id d.function_arn)).2.1
               ++ "): " ++ err.Error }]) ∧
      ((conn.lambdaFunctionAssociationByArn ctx (tf.LambdaFunctionAssociationParseID d.id).1
          (tf.LambdaFunctionAssociationParseID d.id).2.1 w.remote).2 = some err →
        (resourceAwsConnectLambdaFunctionAssociationRead tf conn ctx d w).diags =
          [{ Severity := Severity.Error,
             Summary := "error finding Lambda Association by Function ARN ("
               ++ (tf.LambdaFunctionAssociationParseID d.id).2.1 ++ "): " ++ err.Error }]) ∧
      ((tf.LambdaFunctionAssociationParseID d.id).2.2 = none →
        (conn.disassociateLambdaFunction Context.background
          (tf.LambdaFunctionAssociationParseID d.id).1
          (tf.LambdaFunctionAssociationParseID d.id).2.1 w.remote).1 = some err →
        (resourceAwsConnectLambdaFunctionAssociationDelete tf conn ctx d w).diags =
          [{ Severity := Severity.Error,
             Summary := "error deleting Connect Lambda Function Association (" ++ d.id
               ++ "): " ++ err.Error }]) := by
  refine ⟨?_, ?_, ?_, ?_⟩
  · intro h
    rw [create_associate_error tf conn ctx d w err h]
    rfl
  · intro hok h
    rw [create_associate_ok tf conn ctx d w hok]
    exact (read_finder_error tf conn ctx _ _ err h).1
  · intro h
    exact (read_finder_error tf conn ctx d w err h).1
  · intro hwf h
    rw [delete_accepted tf conn ctx d w hwf]
    simp only [h]
    rfl

/-- Witness for C7: Create, Read and Delete against a throttled remote, and Create
against a remote that accepts the associate call and refuses the listing. -/
theorem remote_error_is_returned_witness :
    (resourceAwsConnectLambdaFunctionAssociationCreate (specCodec "::") specConn callerCtx
        (plannedData "inst-1" sampleArn) (freshWorld throttledRemote)).diags =
        errorDiag ("error creating Connect Lambda Function Association (inst-1::" ++ sampleArn
          ++ "): ThrottlingException: rate exceeded") ∧
      (resourceAwsConnectLambdaFunctionAssociationCreate (specCodec "::") specConn callerCtx
        (plannedData "inst-1" sampleArn) (freshWorld listDeniedRemote)).diags =
        errorDiag ("error finding Lambda Association by Function ARN (" ++ sampleArn
          ++ "): AccessDeniedException: listing not authorized") ∧
      (resourceAwsConnectLambdaFunctionAssociationRead (specCodec "::") specConn callerCtx
        (storedData ("inst-1::" ++ sampleArn)) (freshWorld throttledRemote)).diags =
        errorDiag ("error finding Lambda Association by Function ARN (" ++ sampleArn
          ++ "): ThrottlingException: rate exceeded") ∧
      (resourceAwsConnectLambdaFunctionAssociationDelete (specCodec "::") specConn callerCtx
        (storedData ("inst-1::" ++ sampleArn)) (freshWorld throttledRemote)).diags =
        errorDiag ("error deleting Connect Lambda Function Association (inst-1::" ++ sampleArn
          ++ "): ThrottlingException: rate exceeded") :=
  ⟨(remote_error_is_returned (specCodec "::") specConn callerCtx
      (plannedData "inst-1" sampleArn) (freshWorld throttledRemote)
      (GoError.errorString "ThrottlingException: rate exceeded")).1 (by decide),
   (remote_error_is_returned (specCodec "::") specConn callerCtx
      (plannedData "inst-1" sampleArn) (freshWorld listDeniedRemote)
      (GoError.errorString "AccessDeniedException: listing not authorized")).2.1
        (by decide) (by decide),
   (remote_error_is_returned (specCodec "::") specConn callerCtx
      (storedData ("inst-1::" ++ sampleArn)) (freshWorld throttledRemote)
      (GoError.errorString "ThrottlingException: rate exceeded")).2.2.1 (by decide),
   (remote_error_is_returned (specCodec "::") specConn callerCtx
      (storedData ("inst-1::" ++ sampleArn)) (freshWorld throttledRemote)
      (GoError.errorString "ThrottlingException: rate exceeded")).2.2.2 (by decide) (by decide)⟩

/-- C8: when the decoder rejects the stored id with `err`, Delete returns exactly that
error as its diagnostic and leaves the resource data and the world as they were: no
disassociate call is issued.  Every call Delete issues is a disassociate call for the
pair of an id the decoder accepted. -/
theorem delete_decodes_before_disassociate {σ : Type} (tf : Tfconnect)
    (conn : ConnectConn σ) (ctx : Context) (d : ResourceData) (w : World σ) :
    (∀ err, (tf.LambdaFunctionAssociationParseID d.id).2.2 = some err →
        (resourceAwsConnectLambdaFunctionAssociationDelete tf conn ctx d w).diags =
            [{ Severity := Severity.Error, Summary := err.Error }] ∧
          (resourceAwsConnectLambdaFunctionAssociationDelete tf conn ctx d w).d = d ∧
          (resourceAwsConnectLambdaFunctionAssociationDelete tf conn ctx d w).world = w) ∧
      ∃ issued,
        (resourceAwsConnectLambdaFunctionAssociationDelete tf conn ctx d w).world.calls =
            w.calls ++ issued ∧
          ∀ c ∈ issued,
            (tf.LambdaFunctionAssociationParseID d.id).2.2 = none ∧
              ∃ sent, c = RemoteCall.disassociate sent
                (tf.LambdaFunctionAssociationParseID d.id).1
                (tf.LambdaFunctionAssociationParseID d.id).2.1 := by
  constructor
  · intro err h
    rw [delete_rejected tf conn ctx d w err h]
    exact ⟨rfl, rfl, rfl⟩
  · cases h : (tf.LambdaFunctionAssociationParseID d.id).2.2 with
    | some err =>
      refine ⟨[], ?_, ?_⟩
      · rw [delete_rejected tf conn ctx d w err h]
        simp
      · intro c hc
        cases hc
    | none =>
      refine ⟨[RemoteCall.disassociate Context.background
        (tf.LambdaFunctionAssociationParseID d.id).1
        (tf.LambdaFunctionAssociationParseID d.id).2.1], ?_, ?_⟩
      · rw [delete_accepted tf conn ctx d w h]
      · intro c hc
        rw [List.mem_singleton] at hc
        exact ⟨rfl, Context.background, hc⟩

/-- Witness for C8: Delete of the id `inst-1`, which has no separator. -/
theorem delete_decodes_before_disassociate_witness :
    (specCodec "::").LambdaFunctionAssociationParseID "inst-1" =
        ("", "", some (GoError.errorString "MalformedIdentifierError: inst-1")) ∧
      (resourceAwsConnectLambdaFunctionAssociationDelete (specCodec "::") specConn callerCtx
        (storedData "inst-1") (freshWorld associatedRemote)).diags =
          errorDiag "MalformedIdentifierError: inst-1" ∧
      (resourceAwsConnectLambdaFunctionAssociationDelete (specCodec "::") specConn callerCtx
        (storedData "inst-1") (freshWorld associatedRemote)).world =
          freshWorld associatedRemote :=
  ⟨by decide,
   ((delete_decodes_before_disassociate (specCodec "::") specConn callerCtx
      (storedData "inst-1") (freshWorld associatedRemote)).1
        (GoError.errorString "MalformedIdentifierError: inst-1") (by decide)).1,
   ((delete_decodes_before_disassociate (specCodec "::") specConn callerCtx
      (storedData "inst-1") (freshWorld associatedRemote)).1
        (GoError.errorString "MalformedIdentifierError: inst-1") (by decide)).2.2⟩

/-- C9, refuted as stated: the instance id `inst::1` contains the separator and the
specification's `encode` rejects the pair, yet Create sends the associate call and sets
the id to the plain join; the failure it then returns is Read's, not an encoding
error. -/
theorem create_composes_id_unguarded :
    containsSeparator "::" "inst::1" = true ∧
      encode "::" "inst::1" sampleArn =
        Except.error (GoError.errorString "EncodingError: component contains ::") ∧
      resourceAwsConnectLambdaFunctionAssociationCreate (specCodec "::") specConn callerCtx
          (plannedData "inst::1" sampleArn) (freshWorld emptyRemote) =
        { diags := errorDiag "error finding Lambda Association Function ARN (): not found",
          d := { id := "inst::1::" ++ sampleArn, instance_id := "inst::1",
                 function_arn := sampleArn, written := ["id"] },
          world := { remote := { functions := [("inst::1", sampleArn)], outage := none,
                                 listDenied := false, reportsMissing := false },
                     calls := [RemoteCall.associate callerCtx "inst::1" sampleArn,
                               RemoteCall.find callerCtx "" ""] } } :=
  ⟨by decide, rfl, by decide⟩

/-- C9, amended: composing the composite id cannot fail.  For every pair, with or
without the separator, Create first sends the associate call for that pair, and when
that call succeeds it sets the id to `LambdaFunctionAssociationID` of the pair. -/
theorem create_sets_id_for_every_pair {σ : Type} (tf : Tfconnect) (conn : ConnectConn σ)
    (ctx : Context) (d : ResourceData) (w : World σ) :
    (∃ later, (resourceAwsConnectLambdaFunctionAssociationCreate tf conn ctx d w).world.calls =
        w.calls ++ RemoteCall.associate ctx d.instance_id d.function_arn :: later) ∧
      ((conn.associateLambdaFunction ctx d.instance_id d.function_arn w.remote).1 = none →
        (resourceAwsConnectLambdaFunctionAssociationCreate tf conn ctx d w).d.id =
            tf.LambdaFunctionAssociationID d.instance_id d.function_arn ∧
          "id" ∈ (resourceAwsConnectLambdaFunctionAssociationCreate tf conn ctx d w).d.written) := by
  constructor
  · cases h : (conn.associateLambdaFunction ctx d.instance_id d.function_arn w.remote).1 with
    | some err =>
      rw [create_associate_error tf conn ctx d w err h]
      exact ⟨[], rfl⟩
    | none =>
      rw [create_associate_ok tf conn ctx d w h, read_world]
      exact ⟨_, List.append_assoc _ _ _⟩
  · intro h
    rw [create_associate_ok tf conn ctx d w h]
    refine ⟨by rw [read_keeps_id]; rfl, ?_⟩
    unfold resourceAwsConnectLambdaFunctionAssociationRead
    simp only [LambdaFunctionAssociationByArnWithContext, ResourceData.Id]
    split
    · simp [ResourceData.SetId]
    · split
      · simp [ResourceData.SetId]
      · simp [Set_both, ResourceData.SetId]

/-- Witness for C9 (amended): Create with an instance id that contains the separator. -/
theorem create_sets_id_for_every_pair_witness :
    (specConn.associateLambdaFunction callerCtx "inst::1" sampleArn emptyRemote).1 = none ∧
      (resourceAwsConnectLambdaFunctionAssociationCreate (specCodec "::") specConn callerCtx
        (plannedData "inst::1" sampleArn) (freshWorld emptyRemote)).d.id =
          "inst::1::" ++ sampleArn :=
  ⟨by decide,
   ((create_sets_id_for_every_pair (specCodec "::") specConn callerCtx
      (plannedData "inst::1" sampleArn) (freshWorld emptyRemote)).2 (by decide)).1⟩

/-- C10, evaluated on the code: Delete is called with a cancelled context, which is not
the background context.  Its disassociate call is recorded under the background
context and goes through, while Create under the same cancelled context has its
associate call, sent under that context, refused. -/
theorem delete_drops_caller_context :
    cancelledCtx ≠ Context.background ∧
      (resourceAwsConnectLambdaFunctionAssociationDelete (specCodec "::") specConn cancelledCtx
          (storedData ("inst-1::" ++ sampleArn)) (freshWorld associatedRemote)).world.calls.map
        RemoteCall.context = [Context.background] ∧
      resourceAwsConnectLambdaFunctionAssociationDelete (specCodec "::") specConn cancelledCtx
          (storedData ("inst-1::" ++ sampleArn)) (freshWorld associatedRemote) =
        { diags := [],
          d := storedData ("inst-1::" ++ sampleArn),
          world := { remote := emptyRemote,
                     calls := [RemoteCall.disassociate Context.background "inst-1"
                       sampleArn] } } ∧
      resourceAwsConnectLambdaFunctionAssociationCreate (specCodec "::") specConn cancelledCtx
          (plannedData "inst-1" sampleArn) (freshWorld emptyRemote) =
        { diags := errorDiag ("error creating Connect Lambda Function Association (inst-1::"
            ++ sampleArn ++ "): RequestCanceled: context canceled"),
          d := plannedData "inst-1" sampleArn,
          world := { remote := emptyRemote,
                     calls := [RemoteCall.associate cancelledCtx "inst-1" sampleArn] } } := by
  decide

end Aws
